import Mathlib

/-!
Shallow embedding of the Keithley 2634B acquisition code
(src/keithley_driver.py and src/measurement_engine.py) together with
proofs about the embedded operations.  Floating point values of the
Python source are modelled as exact rationals; file handles and the
filesystem are modelled as explicit state.
-/

namespace Keithley2634B

/-- Source function enumeration of keithley_driver.SourceFunction. -/
inductive SourceFunction where
  | voltage
  | current
deriving DecidableEq

/-- Resistance value as produced by Keithley2634B.measure: either the
finite quotient voltage/current or the float positive infinity produced
by float(given the small-current guard). -/
inductive Resistance where
  | finite (r : ℚ)
  | posInf
deriving DecidableEq

/-- The small-current threshold 1e-12 used by Keithley2634B.measure. -/
def currentThreshold : ℚ := 1 / 1000000000000

/-- Resistance computation of Keithley2634B.measure:
if abs(current) > 1e-12 then voltage / current else float inf. -/
def computeResistance (current voltage : ℚ) : Resistance :=
  if |current| > currentThreshold then .finite (voltage / current) else .posInf

/-- Result assembly of Keithley2634B.measure after parsing the
instrument reply into (current, voltage): returns
(source_value, measured_value, resistance); the timestamp is external
and omitted from the model. -/
def measureParsed (sf : SourceFunction) (current voltage : ℚ) :
    ℚ × ℚ × Resistance :=
  let resistance := computeResistance current voltage
  match sf with
  | .voltage => (voltage, current, resistance)
  | .current => (current, voltage, resistance)

/-- Character predicate of DataAcquisitionEngine._generate_filename:
c.isalnum() or c in "._-".  Python isalnum is modelled on ASCII
alphanumerics, which covers every input appearing in the claims. -/
def keepChar (c : Char) : Bool :=
  c.isAlphanum || c = '.' || c = '_' || c = '-'

/-- Custom-name sanitization of _generate_filename:
"".join(c for c in custom_name if c.isalnum() or c in "._-")[:50]. -/
def sanitizeCustomName (name : String) : String :=
  String.mk ((name.toList.filter keepChar).take 50)

/-- Filename assembly of _generate_filename.  The timestamp string
(strftime "%Y%m%d_%H%M%S") is an external input of the model;
measurementTypeValue is the .value of the MeasurementType enum. -/
def generateFilename (measurementTypeValue customName timestamp : String) :
    String :=
  let baseName := measurementTypeValue ++ "_" ++ timestamp
  if !customName.isEmpty then
    sanitizeCustomName customName ++ "_" ++ baseName ++ ".csv"
  else
    baseName ++ ".csv"

/-- Filesystem model: an association list from path to file content,
one entry per file, content as a list of lines. -/
def FS := List (String × List String)

/-- Look up the content of a file. -/
def fsLookup (fs : FS) (p : String) : Option (List String) :=
  (List.find? (fun e => e.1 = p) fs).map (fun e => e.2)

/-- Create or overwrite a file. -/
def fsInsert (fs : FS) (p : String) (content : List String) : FS :=
  (p, content) :: fs

/-- Split a character list at every occurrence of the separator,
keeping empty pieces, as str.split does. -/
def splitOnChar (sep : Char) : List Char → List (List Char)
  | [] => [[]]
  | c :: rest =>
    let r := splitOnChar sep rest
    if c = sep then [] :: r
    else (c :: r.headD []) :: r.tail

/-- Final path component, as in pathlib Path.name. -/
def pathName (p : String) : String :=
  String.mk ((splitOnChar '/' p.toList).getLastD [])

/-- Final path component without its last suffix, as in pathlib
Path.stem (for ordinary dotted names such as cache_iv_sweep_x.csv). -/
def pathStem (p : String) : String :=
  let parts := splitOnChar '.' (pathName p).toList
  if parts.length ≤ 1 then pathName p
  else String.mk (List.intercalate ['.'] parts.dropLast)

/-- Recovery destination of recover_from_cache:
save_directory / ("recovered_" + cache_path.stem + ".csv"). -/
def recoveryPath (saveDirectory p : String) : String :=
  saveDirectory ++ "/" ++ ("recovered_" ++ pathStem p ++ ".csv")

/-- DataAcquisitionEngine.recover_from_cache: if the cache file does not
exist, log and return False; otherwise copy it (shutil.copy2) to
recovered_(stem).csv in the current save directory and return True; a
failing copy is caught and reported as False (copyOk models whether the
copy raises). -/
def recoverFromCache (fs : FS) (saveDirectory p : String) (copyOk : Bool) :
    FS × Bool :=
  match fsLookup fs p with
  | none => (fs, false)
  | some content =>
    if copyOk then
      (fsInsert fs (recoveryPath saveDirectory p) content, true)
    else
      (fs, false)

/-- Sweep segment (start, stop, points) of SweepParameters.segments. -/
abbrev Seg := ℚ × ℚ × Nat

/-- Row emitted by _iv_sweep_worker to the persistence queue: the
source level set for the point together with the segment, point_index
and sweep_number columns of the data line (the measured values and the
wall-clock timestamp are external inputs irrelevant to the claims). -/
structure SweepRow where
  sourceLevel : ℚ
  segment : Nat
  pointIndex : Nat
  sweepNumber : Nat
deriving DecidableEq

/-- np.linspace(start, stop, n): n equally spaced values from start to
stop inclusive ([start] for n = 1, empty for n = 0). -/
def linspace (start stop : ℚ) (n : Nat) : List ℚ :=
  if n = 0 then []
  else if n = 1 then [start]
  else (List.range n).map (fun i => start + (stop - start) * i / (n - 1))

/-- Inner point loop of _iv_sweep_worker over the linspace values of one
segment.  fault models the try/except body: when fault attempt is true
the set_source_level/measure call raises, the error is logged, no data
line is emitted and total_points is not incremented (the increment sits
inside the try after the put).  Returns the emitted rows together with
the updated total_points and attempt counters. -/
def runPoints (fault : Nat → Bool) (segIdx sweepNum : Nat) :
    List ℚ → Nat → Nat → List SweepRow × Nat × Nat
  | [], total, attempt => ([], total, attempt)
  | v :: vs, total, attempt =>
    if fault attempt then
      runPoints fault segIdx sweepNum vs total (attempt + 1)
    else
      let rest := runPoints fault segIdx sweepNum vs (total + 1) (attempt + 1)
      (⟨v, segIdx, total, sweepNum⟩ :: rest.1, rest.2)

/-- Forward pass of _iv_sweep_worker: iterate the segments in plan
order; sweep_number starts at 1 and is incremented once after each
segment.  Returns (rows, final sweep_number, final total_points,
final attempt counter). -/
def runForward (fault : Nat → Bool) :
    List Seg → Nat → Nat → Nat → Nat → List SweepRow × Nat × Nat × Nat
  | [], _, sweepNum, total, attempt => ([], sweepNum, total, attempt)
  | (start, stop, n) :: rest, segIdx, sweepNum, total, attempt =>
    let r := runPoints fault segIdx sweepNum (linspace start stop n) total attempt
    let r2 := runForward fault rest (segIdx + 1) (sweepNum + 1) r.2.1 r.2.2
    (r.1 ++ r2.1, r2.2)

/-- Reverse pass of _iv_sweep_worker over the reversed segment list:
segment indices continue at len(segments); sweep_number is NOT changed
inside this loop (the single increment in the source sits after the
loop over reversed_segments). -/
def runReverse (fault : Nat → Bool) :
    List Seg → Nat → Nat → Nat → Nat → List SweepRow
  | [], _, _, _, _ => []
  | (start, stop, n) :: rest, segIdx, sweepNum, total, attempt =>
    let r := runPoints fault segIdx sweepNum (linspace start stop n) total attempt
    r.1 ++ runReverse fault rest (segIdx + 1) sweepNum r.2.1 r.2.2

/-- Rows emitted by one complete, uncancelled run of _iv_sweep_worker:
forward pass from segment 0 with sweep_number 1 and total_points 0;
when bidirectional, a reverse pass over
[(stop, start, points) for start, stop, points in reversed(segments)]
with segment indices starting at len(segments) and the sweep_number
reached after the forward pass. -/
def ivSweepRows (segs : List Seg) (bidirectional : Bool)
    (fault : Nat → Bool) : List SweepRow :=
  let f := runForward fault segs 0 1 0 0
  if bidirectional then
    let rsegs := segs.reverse.map (fun s => (s.2.1, s.1, s.2.2))
    f.1 ++ runReverse fault rsegs segs.length f.2.1 f.2.2.1 f.2.2.2
  else
    f.1

/-- Iteration count of _time_monitor_worker's while loop emitting one
point_count per successful measure; on a faulted attempt the except arm
logs, sleeps the interval and the loop retries, leaving point_count
unchanged.  iters is the number of loop iterations admitted by the
duration check (elapsed < duration). -/
def monitorLoop (fault : Nat → Bool) :
    Nat → Nat → Nat → List Nat
  | 0, _, _ => []
  | iters + 1, attempt, pointCount =>
    if fault attempt then
      monitorLoop fault iters (attempt + 1) pointCount
    else
      pointCount :: monitorLoop fault iters (attempt + 1) (pointCount + 1)

/-- Sequence of point_count values emitted by a complete run of
_time_monitor_worker performing iters loop iterations. -/
def timeMonitorCounts (iters : Nat) (fault : Nat → Bool) : List Nat :=
  monitorLoop fault iters 0 0

/-- Looking up the freshly inserted path finds the new content. -/
theorem fsLookup_fsInsert_self (fs : FS) (p : String) (c : List String) :
    fsLookup (fsInsert fs p c) p = some c := by
  simp [fsLookup, fsInsert, List.find?]

/-- Inserting at one path leaves every other path unchanged. -/
theorem fsLookup_fsInsert_ne (fs : FS) (p q : String) (c : List String)
    (h : p ≠ q) : fsLookup (fsInsert fs p c) q = fsLookup fs q := by
  simp [fsLookup, fsInsert, List.find?, h]

/-- Items consumed by _save_worker from save_queue: a dict with a
filename (and header), any string item, or the None shutdown signal. -/
inductive SaveItem where
  | newFile (filename : String) (header : Option String)
  | line (text : String)
  | shutdown
deriving DecidableEq

/-- State of the persistence worker and its two files: the currently
open primary handle with the lines written to it, the cache handle with
its lines, whether each handle is flushed+fsynced, and the
data_lines_written counter. -/
structure SaveState where
  fileOpen : Bool
  fileContent : List String
  fileSynced : Bool
  cacheOpen : Bool
  cacheContent : List String
  cacheSynced : Bool
  dataLinesWritten : Nat
deriving DecidableEq

/-- Fresh save-worker state: no primary file open yet; the cache handle
is open exactly when _init_cache was called by the session start. -/
def initSaveState (cacheOpen : Bool) : SaveState :=
  { fileOpen := false, fileContent := [], fileSynced := true
    cacheOpen := cacheOpen, cacheContent := [], cacheSynced := true
    dataLinesWritten := 0 }

/-- DataAcquisitionEngine._write_to_cache: when a cache handle is open,
append the line, flush and os.fsync; otherwise do nothing. -/
def writeToCache (s : SaveState) (text : String) : SaveState :=
  if s.cacheOpen then
    { s with cacheContent := s.cacheContent ++ [text], cacheSynced := true }
  else
    s

/-- One iteration of the _save_worker dispatch, preserving the source's
elif order: the new-file command first; then ANY string while a file
handle is open is treated as a data line (written to primary and cache,
counted); only when no handle is open is the string compared against
the sync marker, whose body is then guarded by the same absent handle
and so does nothing; a remaining string is merely logged. -/
def processItem (s : SaveState) : SaveItem → SaveState
  | .newFile _ header =>
    let s1 : SaveState :=
      { s with fileOpen := true, fileContent := []
               dataLinesWritten := if s.fileOpen then 0 else s.dataLinesWritten }
    match header with
    | some h => writeToCache { s1 with fileContent := [h], fileSynced := true } h
    | none => s1
  | .line text =>
    if s.fileOpen then
      let s1 := { s with fileContent := s.fileContent ++ [text], fileSynced := true }
      let s2 := writeToCache s1 text
      { s2 with dataLinesWritten := s2.dataLinesWritten + 1 }
    else if text = "__SYNC_MARKER__" then
      s
    else
      s
  | .shutdown => s

/-- Run of the _save_worker loop over a queue of items: the None
shutdown signal breaks the loop. -/
def runSave (s : SaveState) : List SaveItem → SaveState
  | [] => s
  | SaveItem.shutdown :: _ => s
  | item :: rest => runSave (processItem s item) rest

/-- Engine-level control state of DataAcquisitionEngine: the shared
flags, pause bookkeeping, the cache handle, the instrument output relay
and whether the shutdown signal was enqueued to the save worker. -/
structure EngineState where
  isMeasuring : Bool
  shouldStop : Bool
  isPaused : Bool
  pauseEventSet : Bool
  pauseStartTime : Option ℚ
  totalPauseTime : ℚ
  cacheOpen : Bool
  outputOn : Bool
  shutdownEnqueued : Bool
deriving DecidableEq

/-- Engine state as built by DataAcquisitionEngine.__init__. -/
def initEngine : EngineState :=
  { isMeasuring := false, shouldStop := false, isPaused := false
    pauseEventSet := true, pauseStartTime := none, totalPauseTime := 0
    cacheOpen := false, outputOn := false, shutdownEnqueued := false }

/-- DataAcquisitionEngine.start_iv_sweep: refuse when already
measuring; configOk models whether configure_measurement (or filename
resolution) raises, in which case the exception is caught and False is
returned; otherwise the cache is initialized (cacheInitOk models
_init_cache succeeding), the control flags are reset, threads start and
True is returned. -/
def startIvSweep (s : EngineState) (configOk cacheInitOk : Bool) :
    EngineState × Bool :=
  if s.isMeasuring then (s, false)
  else if !configOk then (s, false)
  else
    ({ s with shouldStop := false, isPaused := false, pauseEventSet := true
              pauseStartTime := none, totalPauseTime := 0
              cacheOpen := cacheInitOk, isMeasuring := true }, true)

/-- DataAcquisitionEngine.start_time_monitor: identical control-flag
resets, but the body contains no _init_cache call, so the cache handle
is left exactly as it was. -/
def startTimeMonitor (s : EngineState) (configOk : Bool) :
    EngineState × Bool :=
  if s.isMeasuring then (s, false)
  else if !configOk then (s, false)
  else
    ({ s with shouldStop := false, isPaused := false, pauseEventSet := true
              pauseStartTime := none, totalPauseTime := 0
              isMeasuring := true }, true)

/-- Finally block of the measurement workers: output_off,
is_measuring = False and (for the sweep worker) _close_cache. -/
def workerFinalize (s : EngineState) : EngineState :=
  { s with outputOn := false, isMeasuring := false, cacheOpen := false }

/-- DataAcquisitionEngine.stop_measurement: early return when idle;
otherwise set should_stop, force-resume when paused (open the pause
gate), join the measurement worker with a bounded timeout (joinMeasOk
models the worker finishing inside the timeout and hence running its
finally block; on timeout a warning is logged and stop proceeds),
enqueue the None shutdown signal, join the save worker (bounded,
logged), close the cache and clear is_measuring. -/
def stopMeasurement (s : EngineState) (joinMeasOk : Bool) : EngineState :=
  if !s.isMeasuring then s
  else
    let s1 := { s with shouldStop := true }
    let s2 :=
      if s1.isPaused then { s1 with isPaused := false, pauseEventSet := true }
      else s1
    let s3 := if joinMeasOk then workerFinalize s2 else s2
    { s3 with shutdownEnqueued := true, cacheOpen := false
              isMeasuring := false }

/-- The total_points counter returned by the inner point loop equals
its initial value plus the number of rows actually emitted. -/
theorem runPoints_total (fault : Nat → Bool) (segIdx sweepNum : Nat)
    (vs : List ℚ) : ∀ total attempt,
    (runPoints fault segIdx sweepNum vs total attempt).2.1 =
      total + (runPoints fault segIdx sweepNum vs total attempt).1.length := by
  induction vs with
  | nil => intro total attempt; simp [runPoints]
  | cons v vs ih =>
    intro total attempt
    by_cases h : fault attempt
    · simpa [runPoints, h] using ih total (attempt + 1)
    · simp only [runPoints, h, if_false, Bool.false_eq_true, List.length_cons]
      rw [ih (total + 1) (attempt + 1)]
      omega

/-- Rows emitted by the inner point loop carry consecutive point_index
values starting at the incoming total_points counter. -/
theorem runPoints_pointIndex (fault : Nat → Bool) (segIdx sweepNum : Nat)
    (vs : List ℚ) : ∀ total attempt,
    ((runPoints fault segIdx sweepNum vs total attempt).1.map
        (fun r => r.pointIndex)) =
      List.range' total
        (runPoints fault segIdx sweepNum vs total attempt).1.length := by
  induction vs with
  | nil => intro total attempt; simp [runPoints]
  | cons v vs ih =>
    intro total attempt
    by_cases h : fault attempt
    · simpa [runPoints, h] using ih total (attempt + 1)
    · simp only [runPoints, h, if_false, Bool.false_eq_true, List.map_cons,
        List.length_cons, List.range'_succ]
      rw [ih (total + 1) (attempt + 1)]

/-- Every row emitted by the inner point loop carries the sweep_number
it was called with. -/
theorem runPoints_sweepNumber (fault : Nat → Bool) (segIdx sweepNum : Nat)
    (vs : List ℚ) : ∀ total attempt r,
    r ∈ (runPoints fault segIdx sweepNum vs total attempt).1 →
      r.sweepNumber = sweepNum := by
  induction vs with
  | nil => intro total attempt r hr; simp [runPoints] at hr
  | cons v vs ih =>
    intro total attempt r hr
    by_cases h : fault attempt
    · exact ih total (attempt + 1) r (by simpa [runPoints, h] using hr)
    · simp only [runPoints, h, if_false, Bool.false_eq_true,
        List.mem_cons] at hr
      rcases hr with hr | hr
      · rw [hr]
      · exact ih (total + 1) (attempt + 1) r hr

/-- The sweep_number reached after the forward pass equals the starting
sweep_number plus the number of segments. -/
theorem runForward_sweepNum_final (fault : Nat → Bool) (segs : List Seg) :
    ∀ segIdx sweepNum total attempt,
    (runForward fault segs segIdx sweepNum total attempt).2.1 =
      sweepNum + segs.length := by
  induction segs with
  | nil => intro segIdx sweepNum total attempt; simp [runForward]
  | cons s rest ih =>
    intro segIdx sweepNum total attempt
    obtain ⟨st, sp, n⟩ := s
    simp only [runForward, List.length_cons]
    rw [ih]
    omega

/-- The total_points counter after the forward pass equals its initial
value plus the number of rows emitted. -/
theorem runForward_total (fault : Nat → Bool) (segs : List Seg) :
    ∀ segIdx sweepNum total attempt,
    (runForward fault segs segIdx sweepNum total attempt).2.2.1 =
      total +
        (runForward fault segs segIdx sweepNum total attempt).1.length := by
  induction segs with
  | nil => intro segIdx sweepNum total attempt; simp [runForward]
  | cons s rest ih =>
    intro segIdx sweepNum total attempt
    obtain ⟨st, sp, n⟩ := s
    simp only [runForward, List.length_append]
    rw [ih, runPoints_total]
    omega

/-- Rows of the forward pass carry consecutive point_index values
starting at the incoming total_points counter. -/
theorem runForward_pointIndex (fault : Nat → Bool) (segs : List Seg) :
    ∀ segIdx sweepNum total attempt,
    ((runForward fault segs segIdx sweepNum total attempt).1.map
        (fun r => r.pointIndex)) =
      List.range' total
        (runForward fault segs segIdx sweepNum total attempt).1.length := by
  induction segs with
  | nil => intro segIdx sweepNum total attempt; simp [runForward]
  | cons s rest ih =>
    intro segIdx sweepNum total attempt
    obtain ⟨st, sp, n⟩ := s
    simp only [runForward, List.map_append, List.length_append]
    rw [runPoints_pointIndex, ih, runPoints_total]
    conv_rhs => rw [Nat.add_comm]
    exact List.range'_append_1 total _ _

/-- Rows of the reverse pass carry consecutive point_index values
starting at the incoming total_points counter. -/
theorem runReverse_pointIndex (fault : Nat → Bool) (segs : List Seg) :
    ∀ segIdx sweepNum total attempt,
    ((runReverse fault segs segIdx sweepNum total attempt).map
        (fun r => r.pointIndex)) =
      List.range' total
        (runReverse fault segs segIdx sweepNum total attempt).length := by
  induction segs with
  | nil => intro segIdx sweepNum total attempt; simp [runReverse]
  | cons s rest ih =>
    intro segIdx sweepNum total attempt
    obtain ⟨st, sp, n⟩ := s
    simp only [runReverse, List.map_append, List.length_append]
    rw [runPoints_pointIndex, ih, runPoints_total]
    conv_rhs => rw [Nat.add_comm]
    exact List.range'_append_1 total _ _

/-- Every row of the reverse pass carries the sweep_number the pass was
entered with: the counter is never incremented between its segments. -/
theorem runReverse_sweepNumber (fault : Nat → Bool) (segs : List Seg) :
    ∀ segIdx sweepNum total attempt r,
    r ∈ runReverse fault segs segIdx sweepNum total attempt →
      r.sweepNumber = sweepNum := by
  induction segs with
  | nil => intro segIdx sweepNum total attempt r hr; simp [runReverse] at hr
  | cons s rest ih =>
    intro segIdx sweepNum total attempt r hr
    obtain ⟨st, sp, n⟩ := s
    simp only [runReverse, List.mem_append] at hr
    rcases hr with hr | hr
    · exact runPoints_sweepNumber fault _ _ _ _ _ r hr
    · exact ih _ _ _ _ r hr

/-- Sweep numbers of forward-pass rows are at least the incoming
sweep_number. -/
theorem runForward_sweepNumber_lb (fault : Nat → Bool) (segs : List Seg) :
    ∀ segIdx sweepNum total attempt r,
    r ∈ (runForward fault segs segIdx sweepNum total attempt).1 →
      sweepNum ≤ r.sweepNumber := by
  induction segs with
  | nil => intro segIdx sweepNum total attempt r hr; simp [runForward] at hr
  | cons s rest ih =>
    intro segIdx sweepNum total attempt r hr
    obtain ⟨st, sp, n⟩ := s
    simp only [runForward, List.mem_append] at hr
    rcases hr with hr | hr
    · exact le_of_eq (runPoints_sweepNumber fault _ _ _ _ _ r hr).symm
    · exact le_trans (Nat.le_succ _) (ih _ _ _ _ r hr)

/-- Sweep numbers of forward-pass rows are at most the incoming
sweep_number plus the number of segments. -/
theorem runForward_sweepNumber_ub (fault : Nat → Bool) (segs : List Seg) :
    ∀ segIdx sweepNum total attempt r,
    r ∈ (runForward fault segs segIdx sweepNum total attempt).1 →
      r.sweepNumber ≤ sweepNum + segs.length := by
  induction segs with
  | nil => intro segIdx sweepNum total attempt r hr; simp [runForward] at hr
  | cons s rest ih =>
    intro segIdx sweepNum total attempt r hr
    obtain ⟨st, sp, n⟩ := s
    simp only [runForward, List.mem_append, List.length_cons] at hr ⊢
    rcases hr with hr | hr
    · rw [runPoints_sweepNumber fault _ _ _ _ _ r hr]; omega
    · have := ih _ _ _ _ r hr; omega

/-- A list whose elements are all equal is pairwise ordered by ≤. -/
theorem pairwise_le_of_const {l : List Nat} (c : Nat)
    (h : ∀ x ∈ l, x = c) : l.Pairwise (· ≤ ·) := by
  induction l with
  | nil => exact List.Pairwise.nil
  | cons a l ih =>
    refine List.Pairwise.cons (fun b hb => ?_) (ih fun x hx => h x (by simp [hx]))
    rw [h a (by simp), h b (by simp [hb])]

/-- Sweep numbers of the forward pass are non-decreasing in emission
order. -/
theorem runForward_sweepNumber_pairwise (fault : Nat → Bool)
    (segs : List Seg) : ∀ segIdx sweepNum total attempt,
    (((runForward fault segs segIdx sweepNum total attempt).1.map
        (fun r => r.sweepNumber)).Pairwise (· ≤ ·)) := by
  induction segs with
  | nil => intro segIdx sweepNum total attempt; simp [runForward]
  | cons s rest ih =>
    intro segIdx sweepNum total attempt
    obtain ⟨st, sp, n⟩ := s
    simp only [runForward, List.map_append]
    rw [List.pairwise_append]
    refine ⟨pairwise_le_of_const sweepNum (fun x hx => ?_), ih _ _ _ _, ?_⟩
    · obtain ⟨r, hr, rfl⟩ := List.mem_map.mp hx
      exact runPoints_sweepNumber fault _ _ _ _ _ r hr
    · intro x hx y hy
      obtain ⟨r, hr, rfl⟩ := List.mem_map.mp hx
      obtain ⟨r2, hr2, rfl⟩ := List.mem_map.mp hy
      rw [runPoints_sweepNumber fault _ _ _ _ _ r hr]
      exact le_trans (Nat.le_succ _)
        (runForward_sweepNumber_lb fault rest _ _ _ _ r2 hr2)

/-- Point indices of a complete uncancelled sweep run, for any fault
pattern: the point_index column is exactly 0, 1, 2, ... in emission
order (a faulted point emits nothing and does not advance the
counter). -/
theorem ivSweepRows_pointIndex (segs : List Seg) (bidirectional : Bool)
    (fault : Nat → Bool) :
    ((ivSweepRows segs bidirectional fault).map (fun r => r.pointIndex)) =
      List.range (ivSweepRows segs bidirectional fault).length := by
  rw [List.range_eq_range']
  cases bidirectional with
  | false => simpa [ivSweepRows] using runForward_pointIndex fault segs 0 1 0 0
  | true =>
    simp only [ivSweepRows, if_true, List.map_append, List.length_append]
    rw [runForward_pointIndex, runReverse_pointIndex, runForward_total]
    conv_rhs => rw [Nat.add_comm]
    simpa using List.range'_append_1 0 _ _

/-- Sweep numbers of a complete uncancelled sweep run are non-decreasing
in emission order, for any plan, direction flag and fault pattern. -/
theorem ivSweepRows_sweepNumber_pairwise (segs : List Seg)
    (bidirectional : Bool) (fault : Nat → Bool) :
    (((ivSweepRows segs bidirectional fault).map
        (fun r => r.sweepNumber)).Pairwise (· ≤ ·)) := by
  cases bidirectional with
  | false =>
    simpa [ivSweepRows] using runForward_sweepNumber_pairwise fault segs 0 1 0 0
  | true =>
    simp only [ivSweepRows, if_true, List.map_append]
    rw [List.pairwise_append]
    refine ⟨runForward_sweepNumber_pairwise fault segs 0 1 0 0,
      pairwise_le_of_const (runForward fault segs 0 1 0 0).2.1
        (fun x hx => ?_), ?_⟩
    · obtain ⟨r, hr, rfl⟩ := List.mem_map.mp hx
      exact runReverse_sweepNumber fault _ _ _ _ _ r hr
    · intro x hx y hy
      obtain ⟨r, hr, rfl⟩ := List.mem_map.mp hx
      obtain ⟨r2, hr2, rfl⟩ := List.mem_map.mp hy
      rw [runReverse_sweepNumber fault _ _ _ _ _ r2 hr2,
        runForward_sweepNum_final]
      have := runForward_sweepNumber_ub fault segs 0 1 0 0 r hr
      omega

/-- The monitor loop emits the consecutive counts starting at the
incoming point_count, one per non-faulted iteration. -/
theorem monitorLoop_eq_range' (fault : Nat → Bool) (iters : Nat) :
    ∀ attempt pointCount,
    monitorLoop fault iters attempt pointCount =
      List.range' pointCount
        (monitorLoop fault iters attempt pointCount).length := by
  induction iters with
  | zero => intro attempt pointCount; simp [monitorLoop]
  | succ n ih =>
    intro attempt pointCount
    by_cases h : fault attempt
    · simpa [monitorLoop, h] using ih (attempt + 1) pointCount
    · simp only [monitorLoop, h, if_false, Bool.false_eq_true,
        List.length_cons, List.range'_succ]
      rw [ih (attempt + 1) (pointCount + 1), List.length_range']

/-- The monitor loop runs all its iterations: it emits one count per
non-faulted attempt among the iterations admitted by the duration
check, i.e. a fault never terminates the loop early. -/
theorem monitorLoop_length (fault : Nat → Bool) (iters : Nat) :
    ∀ attempt pointCount,
    (monitorLoop fault iters attempt pointCount).length =
      ((List.range' attempt iters).filter (fun k => !fault k)).length := by
  induction iters with
  | zero => intro attempt pointCount; simp [monitorLoop]
  | succ n ih =>
    intro attempt pointCount
    by_cases h : fault attempt
    · simp [monitorLoop, h, List.range'_succ, List.filter_cons, ih]
    · simp [monitorLoop, h, List.range'_succ, List.filter_cons, ih]

/-- Effect of one data line on the save-worker state when the primary
handle is open: the line is appended to the primary file (flushed and
synced), mirrored to the cache exactly when the cache handle is open
(flushed and synced there too), and the line counter advances. -/
theorem processItem_line (s : SaveState) (text : String)
    (h : s.fileOpen = true) :
    (processItem s (.line text)).fileContent = s.fileContent ++ [text] ∧
    (processItem s (.line text)).fileSynced = true ∧
    (processItem s (.line text)).cacheContent =
      s.cacheContent ++ (if s.cacheOpen then [text] else []) ∧
    (s.cacheOpen = true → (processItem s (.line text)).cacheSynced = true) ∧
    (processItem s (.line text)).dataLinesWritten = s.dataLinesWritten + 1 ∧
    (processItem s (.line text)).fileOpen = true ∧
    (processItem s (.line text)).cacheOpen = s.cacheOpen := by
  by_cases hc : s.cacheOpen <;> simp [processItem, writeToCache, h, hc]

/-- Draining a run of data lines with both handles open appends exactly
those lines to the primary file and to the cache. -/
theorem runSave_lines (lines : List String) : ∀ s : SaveState,
    s.fileOpen = true → s.cacheOpen = true →
    (runSave s (lines.map SaveItem.line)).fileContent =
      s.fileContent ++ lines ∧
    (runSave s (lines.map SaveItem.line)).cacheContent =
      s.cacheContent ++ lines := by
  induction lines with
  | nil => intro s hf hc; simp [runSave]
  | cons l rest ih =>
    intro s hf hc
    have hp := processItem_line s l hf
    have hrec := ih (processItem s (.line l))
      (hp.2.2.2.2.2.1) (hp.2.2.2.2.2.2.trans hc)
    simp only [List.map_cons, runSave]
    rw [hrec.1, hrec.2, hp.1, hp.2.2.1]
    simp [hc]

/-- A sweep-session persistence run (one NewFile carrying the header,
then any run of string items) leaves the cache file an exact mirror of
the primary file, both holding the header followed by the lines. -/
theorem runSave_session_mirror (fn hdr : String) (lines : List String) :
    (runSave (initSaveState true)
        (SaveItem.newFile fn (some hdr) :: lines.map SaveItem.line)).fileContent =
      hdr :: lines ∧
    (runSave (initSaveState true)
        (SaveItem.newFile fn (some hdr) :: lines.map SaveItem.line)).cacheContent =
      hdr :: lines := by
  have hstep :
      processItem (initSaveState true) (.newFile fn (some hdr)) =
        { fileOpen := true, fileContent := [hdr], fileSynced := true
          cacheOpen := true, cacheContent := [hdr], cacheSynced := true
          dataLinesWritten := 0 } := by
    simp [processItem, initSaveState, writeToCache]
  have hrun := runSave_lines lines
    (processItem (initSaveState true) (.newFile fn (some hdr)))
    (by rw [hstep]) (by rw [hstep])
  have hred : runSave (initSaveState true)
      (SaveItem.newFile fn (some hdr) :: lines.map SaveItem.line) =
      runSave (processItem (initSaveState true) (.newFile fn (some hdr)))
        (lines.map SaveItem.line) := by
    simp [runSave]
  rw [hred, hrun.1, hrun.2, hstep]
  simp

/-- Demonstration sweep plan of the bidirectional example: segments
[(0, 1, 3), (1, -1, 5)]. -/
def demoSegs : List Seg := [(0, 1, 3), (1, -1, 5)]

/-- Fault pattern of a faultless run. -/
def noFault : Nat → Bool := fun _ => false

/-- C1: the claim states that processing a SyncMarker is a no-op on
file content.  The code violates this: in _save_worker the data-line
branch (isinstance(item, str) and file_handle) is tested before the
marker comparison, so with a primary handle open the literal string
__SYNC_MARKER__ is written as a data line into both the primary file
and the cache and counted in data_lines_written — exactly the queue
state every sweep produces at point 0 (total_points % 50 == 0). -/
theorem c1_sync_marker_written_as_data :
    (runSave (initSaveState true)
        [SaveItem.newFile "iv_sweep_20240101_000000.csv"
            (some "timestamp,source_value,measured_value,resistance,segment,point_index,sweep_number"),
         SaveItem.line "0.000,0.0,0.0,inf,0,0,1",
         SaveItem.line "__SYNC_MARKER__"]).fileContent =
      ["timestamp,source_value,measured_value,resistance,segment,point_index,sweep_number",
       "0.000,0.0,0.0,inf,0,0,1", "__SYNC_MARKER__"] ∧
    (runSave (initSaveState true)
        [SaveItem.newFile "iv_sweep_20240101_000000.csv"
            (some "timestamp,source_value,measured_value,resistance,segment,point_index,sweep_number"),
         SaveItem.line "0.000,0.0,0.0,inf,0,0,1",
         SaveItem.line "__SYNC_MARKER__"]).dataLinesWritten = 2 := by
  constructor <;> rfl

/-- C2 counterexample: a monitor session started on a fresh engine
succeeds but never initializes a cache handle (start_time_monitor has
no _init_cache call), so while the primary file receives the header and
the data line, the cache file receives nothing and cannot mirror the
primary file. -/
theorem c2_monitor_session_cache_empty :
    (startTimeMonitor initEngine true).2 = true ∧
    (startTimeMonitor initEngine true).1.cacheOpen = false ∧
    (runSave (initSaveState (startTimeMonitor initEngine true).1.cacheOpen)
        [SaveItem.newFile "time_monitor_20240101_000000.csv"
            (some "timestamp,elapsed_time,source_value,measured_value,resistance"),
         SaveItem.line "1700000000.0,0.1,0.0,0.0,inf"]).fileContent =
      ["timestamp,elapsed_time,source_value,measured_value,resistance",
       "1700000000.0,0.1,0.0,0.0,inf"] ∧
    (runSave (initSaveState (startTimeMonitor initEngine true).1.cacheOpen)
        [SaveItem.newFile "time_monitor_20240101_000000.csv"
            (some "timestamp,elapsed_time,source_value,measured_value,resistance"),
         SaveItem.line "1700000000.0,0.1,0.0,0.0,inf"]).cacheContent = [] := by
  refine ⟨rfl, rfl, rfl, rfl⟩

/-- C2 amended: for sweep sessions — which initialize the cache handle
at start — every data line is written to both the primary file and the
cache, each flushed and OS-synced, before the command counts as
processed, and the cache mirrors the primary file exactly; monitor
sessions never initialize a cache handle, so their samples reach only
the primary file. -/
theorem c2_sweep_dual_write_mirror :
    (∀ (s : EngineState) (configOk : Bool),
      (startIvSweep s configOk true).2 = true →
        (startIvSweep s configOk true).1.cacheOpen = true) ∧
    (∀ (s : SaveState) (text : String),
      s.fileOpen = true → s.cacheOpen = true →
      (processItem s (.line text)).fileContent = s.fileContent ++ [text] ∧
      (processItem s (.line text)).fileSynced = true ∧
      (processItem s (.line text)).cacheContent = s.cacheContent ++ [text] ∧
      (processItem s (.line text)).cacheSynced = true) ∧
    (∀ (fn hdr : String) (lines : List String),
      (runSave (initSaveState true)
          (SaveItem.newFile fn (some hdr) :: lines.map SaveItem.line)).cacheContent =
        (runSave (initSaveState true)
          (SaveItem.newFile fn (some hdr) :: lines.map SaveItem.line)).fileContent) := by
  refine ⟨?_, ?_, ?_⟩
  · intro s configOk h
    by_cases hm : s.isMeasuring
    · simp [startIvSweep, hm] at h
    · by_cases hc : configOk
      · simp [startIvSweep, hm, hc]
      · simp [startIvSweep, hm, hc] at h
  · intro s text hf hc
    have hp := processItem_line s text hf
    exact ⟨hp.1, hp.2.1, by rw [hp.2.2.1, hc]; simp, hp.2.2.2.1 hc⟩
  · intro fn hdr lines
    rw [(runSave_session_mirror fn hdr lines).1,
      (runSave_session_mirror fn hdr lines).2]

/-- C2 witness: concrete sweep-session instantiation of the amended
claim. -/
theorem c2_sweep_dual_write_mirror_witness :
    (startIvSweep initEngine true true).1.cacheOpen = true ∧
    (runSave (initSaveState true)
        (SaveItem.newFile "iv_sweep_20240101_000000.csv"
            (some "header") :: ["a,b", "c,d"].map SaveItem.line)).cacheContent =
      (runSave (initSaveState true)
        (SaveItem.newFile "iv_sweep_20240101_000000.csv"
            (some "header") :: ["a,b", "c,d"].map SaveItem.line)).fileContent :=
  ⟨c2_sweep_dual_write_mirror.1 initEngine true rfl,
   c2_sweep_dual_write_mirror.2.2 "iv_sweep_20240101_000000.csv" "header"
     ["a,b", "c,d"]⟩

/-- C3 counterexample: in the bidirectional example plan the claim's
once-more-per-reverse-segment increment would give the rows of the
second reverse segment (segment index 3, i.e. segment 1 replayed)
sweep_number 4; the code emits sweep_number 3 for them, and no row of
the whole run ever carries 4 (the single increment sits after the loop
over reversed segments). -/
theorem c3_reverse_segments_share_sweep_number :
    ((ivSweepRows demoSegs true noFault).filter
        (fun r => r.segment == 3)).map (fun r => r.sweepNumber) = [3, 3, 3] ∧
    ((ivSweepRows demoSegs true noFault).map (fun r => r.sweepNumber)).count 4
      = 0 := by
  constructor <;> rfl

/-- C3 amended: sweep_number is non-decreasing across the output and
increments once after each forward segment, but the bidirectional
reverse pass shares a single sweep_number for all its segments
(incremented once only after the whole pass): for the example plan the
forward pass carries 1 then 2 and every reverse-pass row carries 3. -/
theorem c3_sweep_number_monotone_reverse_shared :
    (∀ (segs : List Seg) (bidirectional : Bool) (fault : Nat → Bool),
      (((ivSweepRows segs bidirectional fault).map
          (fun r => r.sweepNumber)).Pairwise (· ≤ ·))) ∧
    ((ivSweepRows demoSegs true noFault).map (fun r => r.sweepNumber)) =
      [1, 1, 1, 2, 2, 2, 2, 2, 3, 3, 3, 3, 3, 3, 3, 3] :=
  ⟨fun segs bidirectional fault =>
      ivSweepRows_sweepNumber_pairwise segs bidirectional fault, by rfl⟩

/-- C4 counterexample: in a 3-point single-segment sweep whose second
point faults, the emitted point_index values are 0, 1 — the failed
point does not increment total_points (the increment sits inside the
try block, after the enqueue), so no gap appears where the claim
requires the sequence 0, 2. -/
theorem c4_failed_point_leaves_no_gap :
    ((ivSweepRows [((0 : ℚ), (1 : ℚ), 3)] false (fun k => k == 1)).map
        (fun r => r.pointIndex)) = [0, 1] ∧
    ((ivSweepRows [((0 : ℚ), (1 : ℚ), 3)] false (fun k => k == 1)).map
        (fun r => r.pointIndex)) ≠ [0, 2] := by
  constructor
  · rfl
  · decide

/-- C4 amended: a failed point in a sweep is logged and skipped and the
worker continues, but the point counter is NOT incremented, so the
point_index column stays contiguous (0, 1, 2, ...) for every fault
pattern and failures leave no visible gap; a monitor session runs every
iteration admitted by the duration check regardless of faults, emitting
one contiguous point count per non-faulted iteration — neither session
type aborts on a single transient fault. -/
theorem c4_fault_skip_no_gap_and_monitor_retry :
    (∀ (segs : List Seg) (bidirectional : Bool) (fault : Nat → Bool),
      ((ivSweepRows segs bidirectional fault).map (fun r => r.pointIndex)) =
        List.range (ivSweepRows segs bidirectional fault).length) ∧
    (∀ (iters : Nat) (fault : Nat → Bool),
      timeMonitorCounts iters fault =
        List.range
          (((List.range iters).filter (fun k => !fault k)).length)) := by
  refine ⟨fun segs bidirectional fault =>
    ivSweepRows_pointIndex segs bidirectional fault, fun iters fault => ?_⟩
  show monitorLoop fault iters 0 0 = _
  rw [monitorLoop_eq_range' fault iters 0 0, monitorLoop_length fault iters 0 0]
  simp [List.range_eq_range']

/-- C5: for every uncancelled, fault-free sweep run, the point_index
values emitted to the persistence queue form the sequence
0, 1, 2, ... strictly increasing by 1, across all segment boundaries
and across the bidirectional reverse pass. -/
theorem c5_point_index_strictly_increasing (segs : List Seg)
    (bidirectional : Bool) :
    ((ivSweepRows segs bidirectional noFault).map (fun r => r.pointIndex)) =
      List.range (ivSweepRows segs bidirectional noFault).length :=
  ivSweepRows_pointIndex segs bidirectional noFault

/-- C6: stop_measurement is a no-op when idle; otherwise it sets the
cancellation flag, force-resumes a paused session (opening the pause
gate) so the worker can observe cancellation, proceeds past both
bounded joins regardless of their outcome, enqueues the shutdown
signal, closes the cache handle and clears is_measuring; whenever the
measurement worker finishes inside the join timeout its finally block
has turned the instrument output off. -/
theorem c6_stop_measurement_contract (s : EngineState) (joinMeasOk : Bool) :
    (s.isMeasuring = false → stopMeasurement s joinMeasOk = s) ∧
    (s.isMeasuring = true →
      (stopMeasurement s joinMeasOk).shouldStop = true ∧
      (stopMeasurement s joinMeasOk).isPaused = false ∧
      (s.isPaused = true →
        (stopMeasurement s joinMeasOk).pauseEventSet = true) ∧
      (stopMeasurement s joinMeasOk).shutdownEnqueued = true ∧
      (stopMeasurement s joinMeasOk).cacheOpen = false ∧
      (stopMeasurement s joinMeasOk).isMeasuring = false ∧
      (joinMeasOk = true → (stopMeasurement s joinMeasOk).outputOn = false)) := by
  constructor
  · intro h; simp [stopMeasurement, h]
  · intro h
    by_cases hp : s.isPaused <;> by_cases hj : joinMeasOk <;>
      simp [stopMeasurement, h, hp, hj, workerFinalize]

/-- C6 witness: stopping a running, paused session with a successful
join terminates it with the pause gate open, the cache closed and the
output off; stopping an idle engine changes nothing. -/
theorem c6_stop_measurement_contract_witness :
    stopMeasurement initEngine true = initEngine ∧
    ((stopMeasurement
        { initEngine with isMeasuring := true, isPaused := true
                          pauseEventSet := false, outputOn := true }
        true).shouldStop = true ∧
     (stopMeasurement
        { initEngine with isMeasuring := true, isPaused := true
                          pauseEventSet := false, outputOn := true }
        true).pauseEventSet = true ∧
     (stopMeasurement
        { initEngine with isMeasuring := true, isPaused := true
                          pauseEventSet := false, outputOn := true }
        true).outputOn = false) :=
  ⟨(c6_stop_measurement_contract initEngine true).1 rfl,
   ((c6_stop_measurement_contract
      { initEngine with isMeasuring := true, isPaused := true
                        pauseEventSet := false, outputOn := true } true).2
      rfl).1,
   ((c6_stop_measurement_contract
      { initEngine with isMeasuring := true, isPaused := true
                        pauseEventSet := false, outputOn := true } true).2
      rfl).2.2.1 rfl,
   ((c6_stop_measurement_contract
      { initEngine with isMeasuring := true, isPaused := true
                        pauseEventSet := false, outputOn := true } true).2
      rfl).2.2.2.2.2.2 rfl⟩

/-- C7: recovering an existing cache file creates
recovered_(stem).csv in the output directory holding exactly the cache
content (hence equal line count), leaves the original cache entry
untouched, and returns True; a missing source file or a failing copy
returns False with the filesystem unchanged. -/
theorem c7_recover_from_cache_contract (fs : FS) (dir p q : String)
    (content : List String) (copyOk : Bool)
    (hp : fsLookup fs p = some content)
    (hne : recoveryPath dir p ≠ p)
    (hq : fsLookup fs q = none) :
    (recoverFromCache fs dir p true).2 = true ∧
    fsLookup (recoverFromCache fs dir p true).1 (recoveryPath dir p) =
      some content ∧
    fsLookup (recoverFromCache fs dir p true).1 p = some content ∧
    ((fsLookup (recoverFromCache fs dir p true).1
        (recoveryPath dir p)).map List.length = some content.length) ∧
    recoverFromCache fs dir q copyOk = (fs, false) ∧
    recoverFromCache fs dir p false = (fs, false) := by
  refine ⟨?_, ?_, ?_, ?_, ?_, ?_⟩
  · simp [recoverFromCache, hp]
  · simp only [recoverFromCache, hp, if_true]
    exact fsLookup_fsInsert_self fs (recoveryPath dir p) content
  · simp only [recoverFromCache, hp, if_true]
    rw [fsLookup_fsInsert_ne fs (recoveryPath dir p) p content hne]
    exact hp
  · simp only [recoverFromCache, hp, if_true]
    rw [fsLookup_fsInsert_self fs (recoveryPath dir p) content]
    rfl
  · simp [recoverFromCache, hq]
  · simp [recoverFromCache, hp]

/-- C7 witness: concrete round trip on a three-line cache file, plus a
missing-file failure and a failing-copy failure. -/
theorem c7_recover_from_cache_contract_witness :
    recoveryPath "data" "data/cache/cache_iv_sweep_20240101_000000.csv" =
      "data/recovered_cache_iv_sweep_20240101_000000.csv" ∧
    fsLookup
      (recoverFromCache
        [("data/cache/cache_iv_sweep_20240101_000000.csv", ["h", "1", "2"])]
        "data" "data/cache/cache_iv_sweep_20240101_000000.csv" true).1
      (recoveryPath "data" "data/cache/cache_iv_sweep_20240101_000000.csv") =
      some ["h", "1", "2"] ∧
    recoverFromCache
        [("data/cache/cache_iv_sweep_20240101_000000.csv", ["h", "1", "2"])]
        "data" "data/cache/missing.csv" true =
      ([("data/cache/cache_iv_sweep_20240101_000000.csv", ["h", "1", "2"])],
        false) :=
  ⟨by decide,
   (c7_recover_from_cache_contract
      [("data/cache/cache_iv_sweep_20240101_000000.csv", ["h", "1", "2"])]
      "data" "data/cache/cache_iv_sweep_20240101_000000.csv"
      "data/cache/missing.csv" ["h", "1", "2"] true
      (by rfl) (by decide) (by rfl)).2.1,
   (c7_recover_from_cache_contract
      [("data/cache/cache_iv_sweep_20240101_000000.csv", ["h", "1", "2"])]
      "data" "data/cache/cache_iv_sweep_20240101_000000.csv"
      "data/cache/missing.csv" ["h", "1", "2"] true
      (by rfl) (by decide) (by rfl)).2.2.2.2.1⟩

/-- C8: the custom prefix is reduced to characters that are
alphanumeric or in "._-" and truncated to 50 characters, so no path
separator survives, and the example custom name "Run #1/Test" with
measurement type iv_sweep at timestamp 2024-03-15 10:30:00 yields
Run1Test_iv_sweep_20240315_103000.csv. -/
theorem c8_filename_sanitization (name : String) :
    generateFilename "iv_sweep" "Run #1/Test" "20240315_103000" =
      "Run1Test_iv_sweep_20240315_103000.csv" ∧
    (sanitizeCustomName name).length ≤ 50 ∧
    (∀ c ∈ (sanitizeCustomName name).toList, keepChar c = true) ∧
    '/' ∉ (sanitizeCustomName name).toList ∧
    '\\' ∉ (sanitizeCustomName name).toList := by
  refine ⟨by rfl, ?_, ?_, ?_, ?_⟩
  · show ((name.toList.filter keepChar).take 50).length ≤ 50
    rw [List.length_take]; omega
  · intro c hc
    exact List.of_mem_filter (List.mem_of_mem_take hc)
  · intro hmem
    have h := List.of_mem_filter (List.mem_of_mem_take hmem)
    exact absurd h (by decide)
  · intro hmem
    have h := List.of_mem_filter (List.mem_of_mem_take hmem)
    exact absurd h (by decide)

/-- C8 witness: the concrete sanitized prefix of the example input
holds no path separator. -/
theorem c8_filename_sanitization_witness :
    '/' ∉ (sanitizeCustomName "Run #1/Test").toList :=
  (c8_filename_sanitization "Run #1/Test").2.2.2.1

/-- C9: measure never divides by zero: the resistance slot of its
result is the finite quotient voltage/current exactly when the measured
current magnitude exceeds 1e-12 (which forces the divisor nonzero), and
otherwise is positive infinity regardless of the sign of the measured
voltage. -/
theorem c9_measure_no_division_by_zero (sf : SourceFunction)
    (current voltage : ℚ) :
    (|current| > currentThreshold →
      current ≠ 0 ∧
      (measureParsed sf current voltage).2.2 =
        Resistance.finite (voltage / current)) ∧
    (|current| ≤ currentThreshold →
      (measureParsed sf current voltage).2.2 = Resistance.posInf) := by
  constructor
  · intro h
    have hne : current ≠ 0 := by
      intro h0
      rw [h0] at h
      norm_num [currentThreshold] at h
    exact ⟨hne, by cases sf <;> simp [measureParsed, computeResistance, h]⟩
  · intro h
    cases sf <;> simp [measureParsed, computeResistance, not_lt.mpr h]

/-- C9 witness: 1 ampere and 3 volts give the finite quotient 3 ohms;
zero current with a negative voltage still gives positive infinity. -/
theorem c9_measure_no_division_by_zero_witness :
    (measureParsed SourceFunction.voltage 1 3).2.2 =
      Resistance.finite (3 / 1) ∧
    (measureParsed SourceFunction.voltage 0 (-5)).2.2 = Resistance.posInf :=
  ⟨((c9_measure_no_division_by_zero SourceFunction.voltage 1 3).1
      (by norm_num [currentThreshold])).2,
   (c9_measure_no_division_by_zero SourceFunction.voltage 0 (-5)).2
      (by norm_num [currentThreshold])⟩

/-- C10: every successful start of a sweep or monitor session begins
with cancellation cleared, unpaused with the pause gate open, no
recorded pause start and zero accumulated pause time, so pause and
cancellation state never leaks from a previous session. -/
theorem c10_start_resets_control_state (s : EngineState)
    (configOk cacheInitOk : Bool) :
    ((startIvSweep s configOk cacheInitOk).2 = true →
      (startIvSweep s configOk cacheInitOk).1.shouldStop = false ∧
      (startIvSweep s configOk cacheInitOk).1.isPaused = false ∧
      (startIvSweep s configOk cacheInitOk).1.pauseEventSet = true ∧
      (startIvSweep s configOk cacheInitOk).1.pauseStartTime = none ∧
      (startIvSweep s configOk cacheInitOk).1.totalPauseTime = 0) ∧
    ((startTimeMonitor s configOk).2 = true →
      (startTimeMonitor s configOk).1.shouldStop = false ∧
      (startTimeMonitor s configOk).1.isPaused = false ∧
      (startTimeMonitor s configOk).1.pauseEventSet = true ∧
      (startTimeMonitor s configOk).1.pauseStartTime = none ∧
      (startTimeMonitor s configOk).1.totalPauseTime = 0) := by
  constructor <;> intro h
  · by_cases hm : s.isMeasuring
    · simp [startIvSweep, hm] at h
    · by_cases hc : configOk
      · simp [startIvSweep, hm, hc]
      · simp [startIvSweep, hm, hc] at h
  · by_cases hm : s.isMeasuring
    · simp [startTimeMonitor, hm] at h
    · by_cases hc : configOk
      · simp [startTimeMonitor, hm, hc]
      · simp [startTimeMonitor, hm, hc] at h

/-- C10 witness: starting either session type on an engine still
carrying stale pause and cancellation state resets all of it. -/
theorem c10_start_resets_control_state_witness :
    (startIvSweep
        { initEngine with shouldStop := true, isPaused := true
                          pauseEventSet := false, totalPauseTime := 7 }
        true true).1.shouldStop = false ∧
    (startTimeMonitor
        { initEngine with shouldStop := true, isPaused := true
                          pauseEventSet := false, totalPauseTime := 7 }
        true).1.totalPauseTime = 0 :=
  ⟨((c10_start_resets_control_state
      { initEngine with shouldStop := true, isPaused := true
                        pauseEventSet := false, totalPauseTime := 7 }
      true true).1 rfl).1,
   ((c10_start_resets_control_state
      { initEngine with shouldStop := true, isPaused := true
                        pauseEventSet := false, totalPauseTime := 7 }
      true true).2 rfl).2.2.2.2⟩

end Keithley2634B
